import Mathlib

/-!
Shallow embedding of the "AI Security Surveyor" web application
(address → geocode → static satellite image → multimodal security
analysis → report export), for checking its natural-language
specification against the code.

The embedding follows the latest revision of the application source:
the controller (`App`, with zoom and PDF export), the service module
(`geminiService`: `getAerialViewFromAddress`, `getSecurityAnalysis`,
`MapsRequestDeniedError`), the PDF generator (`generatePdfReport`) and
the marker-rendering view (`AerialView`).  Network calls are abstracted
as oracles stored in environment records; the floating-point latitude /
longitude payloads, which no control decision inspects, are abstracted
as rationals.  Each async handler is embedded as a pure function from
the pre-state and the oracle environment to the sequence of observable
state snapshots (one per suspension point) together with the number of
Imagery Client invocations it performs.
-/

namespace Surveyor

/-! ## Data model (`types.ts`) -/

structure Coordinates where
  x : Rat
  y : Rat
deriving DecidableEq

structure CameraPlacement where
  location : String
  reason : String
  cameraType : String
  coordinates : Coordinates
deriving DecidableEq

structure CameraSummaryItem where
  cameraType : String
  quantity : Rat
deriving DecidableEq

structure SecurityAnalysis where
  overview : String
  placements : List CameraPlacement
  cameraSummary : List CameraSummaryItem
deriving DecidableEq

inductive AnalysisStep where
  | INPUT
  | FETCHING_IMAGE
  | ANALYZING
  | COMPLETE
  | ERROR
deriving DecidableEq, BEq

/-! ## Service layer (`services/geminiService.ts`) -/

/-- The two ways `geminiService` signals failure: the distinguished
`MapsRequestDeniedError` subclass, and a plain `Error` carrying only a
message. -/
inductive GeminiError where
  | mapsRequestDenied (msg : String)
  | generic (msg : String)
deriving DecidableEq

/-- `err.message` of a thrown error (both kinds extend `Error`). -/
def GeminiError.message : GeminiError → String
  | .mapsRequestDenied msg => msg
  | .generic msg => msg

/-- Recognises the distinguished denied-error kind
(`err instanceof MapsRequestDeniedError`). -/
def isMapsRequestDenied : Except GeminiError String → Bool
  | .error (.mapsRequestDenied _) => true
  | _ => false

structure GeoLocation where
  lat : Rat
  lng : Rat
deriving DecidableEq

/-- One element of `geocodeData.results`; only `geometry.location` is read. -/
structure GeoResult where
  location : GeoLocation
deriving DecidableEq

/-- The parsed geocode JSON body: `status`, optional `error_message`,
and the `results` array. -/
structure GeocodeResponse where
  status : String
  error_message : Option String
  results : List GeoResult
deriving DecidableEq

/-- Environment for `getAerialViewFromAddress`: the configured Maps
key, the geocode network call (`none` = network error while fetching or
parsing), and `urlToBase64` on the static-map URL (`none` = fetch or
conversion failure). -/
structure MapsEnv where
  mapsApiKey : Option String
  geocode : String → Option GeocodeResponse
  urlToBase64 : String → Option String

def geocodeDeniedBase : String :=
  "The request to Google Maps was denied. This is often due to an issue with the API key. Please ensure the key is correct and that both the \x27Geocoding API\x27 and \x27Maps Static API\x27 are enabled in your Google Cloud project dashboard."

/-- The non-OK `switch (geocodeData.status)` message for the statuses
other than `REQUEST_DENIED` (which throws inside the switch). -/
def geocodeStatusMessage (status : String) : String :=
  if status == "ZERO_RESULTS" then
    "No location could be found for the address entered. Please check for typos and try again."
  else if status == "OVER_QUERY_LIMIT" then
    "The application has exceeded its daily usage limit for the Google Maps API. Please try again later."
  else if status == "INVALID_REQUEST" then
    "The request to Google Maps was invalid, which might indicate a problem with the address format."
  else
    "Could not find location. Google Maps status: " ++ status ++ "."

/-- `getAerialViewFromAddress(address, zoom)`.  Returns the promise
outcome paired with the number of static-imagery fetches
(`urlToBase64` invocations) performed. -/
def getAerialViewFromAddress (env : MapsEnv) (address : String) (zoom : Int) :
    Except GeminiError String × Nat :=
  match env.mapsApiKey with
  | none =>
    (.error (.generic "Google Maps API Key is not configured. Please ensure VITE_MAPS_API_KEY is set in your environment variables."), 0)
  | some mapsApiKey =>
    match env.geocode address with
    | none =>
      (.error (.generic "A network error occurred while trying to contact Google Maps. Please check your connection."), 0)
    | some geocodeData =>
      if geocodeData.status != "OK" then
        if geocodeData.status == "REQUEST_DENIED" then
          let base := geocodeDeniedBase
          let msg :=
            match geocodeData.error_message with
            | some em => base ++ " (Google\x27s message: " ++ em ++ ")"
            | none => base
          (.error (.mapsRequestDenied msg), 0)
        else
          (.error (.generic (geocodeStatusMessage geocodeData.status)), 0)
      else
        match geocodeData.results.head? with
        | none =>
          (.error (.generic "Google Maps returned a success status but no location data. Please try a different address."), 0)
        | some r =>
          let staticMapUrl :=
            "https://maps.googleapis.com/maps/api/staticmap?center=" ++ toString r.location.lat
              ++ "," ++ toString r.location.lng ++ "&zoom=" ++ toString zoom
              ++ "&size=1024x576&maptype=satellite&key=" ++ mapsApiKey
          match env.urlToBase64 staticMapUrl with
          | none =>
            (.error (.generic "Failed to retrieve satellite imagery from Google Maps. This can happen if the \x27Maps Static API\x27 is not enabled for your API key, even if geocoding works."), 1)
          | some base64Image => (.ok base64Image, 1)

/-- `getSecurityAnalysis`: the base64 payload of the inline image part,
`imageBase64.split(',')[1]`.  The split is expressed on the character
list of the string (same segments as the JavaScript single-character
split); JavaScript indexing past the end yields `undefined`, modelled
as `none`. -/
def base64Data (imageBase64 : String) : Option String :=
  ((imageBase64.data.splitOn ',').map fun l => (⟨l⟩ : String))[1]?

/-- The `inlineData` object of the image part sent to the model. -/
structure InlineData where
  mimeType : String
  data : Option String
deriving DecidableEq

/-- The image part constructed by `getSecurityAnalysis`. -/
def imagePart (imageBase64 : String) : InlineData :=
  { mimeType := "image/jpeg", data := base64Data imageBase64 }

/-! ## Application state controller (`App.tsx`, interactive revision) -/

def MIN_ZOOM : Int := 17
def MAX_ZOOM : Int := 21
def INITIAL_ZOOM : Int := 19

/-- The React component state of `App`: one field per `useState` hook. -/
structure AppState where
  location : String
  aerialImage : Option String
  securityAnalysis : Option SecurityAnalysis
  step : AnalysisStep
  error : String
  hoveredPlacement : Option Nat
  zoomLevel : Int
  isImageLoading : Bool
  isGeneratingPdf : Bool
deriving DecidableEq

/-- The initial values of the `useState` hooks. -/
def initialAppState : AppState :=
  { location := ""
    aerialImage := none
    securityAnalysis := none
    step := .INPUT
    error := ""
    hoveredPlacement := none
    zoomLevel := INITIAL_ZOOM
    isImageLoading := false
    isGeneratingPdf := false }

/-- `isLoading = step === FETCHING_IMAGE || step === ANALYZING`. -/
def isLoading (s : AppState) : Bool :=
  s.step == .FETCHING_IMAGE || s.step == .ANALYZING

/-- `location.trim()`: strips whitespace from both ends (expressed on
the character list of the string; the ASCII whitespace characters are
the relevant ones for the guard). -/
def jsTrim (s : String) : String :=
  ⟨((s.data.dropWhile Char.isWhitespace).reverse.dropWhile Char.isWhitespace).reverse⟩

/-- The extended remediation message built in `handleSubmit`s catch
block when the error is a `MapsRequestDeniedError`. -/
def mapsDeniedRemediation (origin : String) : String :=
  "Request Denied by Google Maps.\n\nThis usually means your API key is restricted. To fix this, you must add your website\x27s URL to the allowed list in your Google Cloud Console.\n\n1. Go to Google Cloud Console -> APIs & Services -> Credentials.\n2. Find your Maps API Key and click to edit it.\n3. Under \"Application restrictions\", select \"Websites\".\n4. Click \"Add\" and enter the following URL:\n\n   "
    ++ origin
    ++ "/*\n\nIt may take a few minutes for the change to take effect."

/-- The error string stored by `handleSubmit`s catch block: the
remediation text for `MapsRequestDeniedError`, otherwise `err.message`
(every error thrown by the service layer is an `Error`, so the
`An unknown error occurred.` fallback for non-`Error` throwables is
unreachable from it). -/
def submitErrorMessage (origin : String) : GeminiError → String
  | .mapsRequestDenied _ => mapsDeniedRemediation origin
  | .generic msg => msg

/-- `handleSubmit`.  `analysisResult` is the oracle outcome of the
`getSecurityAnalysis` network call.  The result lists the component
state after each batch of `setState` calls between suspension points,
in order (empty when the guard returns early), paired with the number
of Imagery Client (`getAerialViewFromAddress`) invocations. -/
def handleSubmit (maps : MapsEnv)
    (analysisResult : Except GeminiError SecurityAnalysis)
    (origin : String) (s : AppState) : List AppState × Nat :=
  if jsTrim s.location == "" || isLoading s then ([], 0)
  else
    let s1 : AppState :=
      { s with error := "", aerialImage := none, securityAnalysis := none
               zoomLevel := INITIAL_ZOOM, step := .FETCHING_IMAGE }
    match (getAerialViewFromAddress maps s.location INITIAL_ZOOM).1 with
    | .error err =>
      ([s1, { s1 with error := submitErrorMessage origin err, step := .ERROR }], 1)
    | .ok imageUrl =>
      let s2 : AppState := { s1 with aerialImage := some imageUrl, step := .ANALYZING }
      match analysisResult with
      | .error err =>
        ([s1, s2, { s2 with error := submitErrorMessage origin err, step := .ERROR }], 1)
      | .ok analysis =>
        ([s1, s2, { s2 with securityAnalysis := some analysis, step := .COMPLETE }], 1)

/-- The component state once `handleSubmit` has settled. -/
def submitFinal (maps : MapsEnv)
    (analysisResult : Except GeminiError SecurityAnalysis)
    (origin : String) (s : AppState) : AppState :=
  (handleSubmit maps analysisResult origin s).1.getLastD s

/-- `handleZoomChange(newZoom)`: guarded by the separate
`isImageLoading` flag, a non-empty `location` and the zoom bounds; on
success replaces the image and the zoom level, on failure stores
`err.message` (the `An unknown error occurred while fetching the new
map image.` fallback is unreachable, every service error is an
`Error`); `finally` clears `isImageLoading`.  Same result convention
as `handleSubmit`. -/
def handleZoomChange (maps : MapsEnv) (s : AppState) (newZoom : Int) :
    List AppState × Nat :=
  if s.isImageLoading || s.location == "" || newZoom < MIN_ZOOM || newZoom > MAX_ZOOM then
    ([], 0)
  else
    let s1 : AppState := { s with isImageLoading := true, error := "" }
    match (getAerialViewFromAddress maps s.location newZoom).1 with
    | .ok imageUrl =>
      ([s1, { s1 with aerialImage := some imageUrl, zoomLevel := newZoom
                      isImageLoading := false }], 1)
    | .error err =>
      ([s1, { s1 with error := err.message, isImageLoading := false }], 1)

/-- The component state once `handleZoomChange` has settled. -/
def zoomFinal (maps : MapsEnv) (s : AppState) (newZoom : Int) : AppState :=
  (handleZoomChange maps s newZoom).1.getLastD s

/-- `handleReset`, the handler of both the `Try Again` button (ERROR
view) and the `Start New Analysis` button (COMPLETE view). -/
def handleReset (s : AppState) : AppState :=
  { s with location := "", aerialImage := none, securityAnalysis := none
           error := "", step := .INPUT, zoomLevel := INITIAL_ZOOM }

/-! ## Marker palettes (`AerialView.tsx` and `pdfGenerator.ts`) -/

/-- `MARKER_COLORS` of `pdfGenerator.ts` (6 entries). -/
def MARKER_COLORS_pdf : List String :=
  ["#34d399", "#fbbf24", "#60a5fa", "#f87171", "#a78bfa", "#f472b6"]

/-- `MARKER_COLORS` of the interactive `AerialView.tsx` (23 entries). -/
def MARKER_COLORS_view : List String :=
  ["#34d399", "#fbbf24", "#60a5fa", "#f87171", "#a78bfa", "#f472b6",
   "#2dd4bf", "#a3e635", "#38bdf8", "#e879f9", "#fb7185", "#22d3ee",
   "#fb923c", "#818cf8", "#d946ef", "#14b8a6", "#facc15", "#ef4444",
   "#0ea5e9", "#6d28d9", "#db2777", "#f59e0b", "#10b981"]

/-- Swatch color of placement `index` in the exported PDF:
`MARKER_COLORS[index % MARKER_COLORS.length]`. -/
def pdfSwatchColor (index : Nat) : String :=
  MARKER_COLORS_pdf.getD (index % MARKER_COLORS_pdf.length) ""

/-- On-screen marker color of placement `index`:
`MARKER_COLORS[index % MARKER_COLORS.length]`. -/
def viewMarkerColor (index : Nat) : String :=
  MARKER_COLORS_view.getD (index % MARKER_COLORS_view.length) ""

/-! ## Report filename (`pdfGenerator.ts`) -/

/-- One step of `address.replace(/[^a-z0-9]/gi, \x27_\x27)`: the
character class is case-insensitive, so exactly the characters outside
`a-z`, `A-Z`, `0-9` are replaced by an underscore. -/
def sanitizeFilenameChar (c : Char) : Char :=
  if (('a' ≤ c && c ≤ 'z') || ('A' ≤ c && c ≤ 'Z') || ('0' ≤ c && c ≤ '9')) then c
  else '_'

/-- `const safeFilename = address.replace(/[^a-z0-9]/gi, \x27_\x27).toLowerCase()`:
the per-character replacement followed by lower-casing, expressed on
the character list of the string (after the replacement every character
is ASCII, where `Char.toLower` agrees with `toLowerCase`). -/
def safeFilename (address : String) : String :=
  ⟨(address.data.map sanitizeFilenameChar).map Char.toLower⟩

/-- The name passed to `pdf.save`. -/
def reportFilename (address : String) : String :=
  "security_report_" ++ safeFilename address ++ ".pdf"

/-! ## Spec-side comparison definition -/

/-- Formalisation of the claimed behaviour "the substring after the
first comma" (absent when the payload has no comma), written from the
claim's words for comparison with `base64Data`, which embeds the
source expression. -/
def specAfterFirstComma (s : String) : Option String :=
  if ',' ∈ s.data then some ⟨(s.data.dropWhile (fun c => c ≠ ',')).tail⟩ else none

/-! ## Concrete fixtures for witnesses and counterexamples -/

/-- A geocode body with `status="OK"` and one result. -/
def geocodeOk : GeocodeResponse :=
  { status := "OK", error_message := none, results := [⟨⟨1, 2⟩⟩] }

/-- A geocode body with `status="REQUEST_DENIED"`. -/
def geocodeDenied : GeocodeResponse :=
  { status := "REQUEST_DENIED", error_message := none, results := [] }

/-- An environment in which both network steps succeed. -/
def mapsEnvOk : MapsEnv :=
  { mapsApiKey := some "maps-key"
    geocode := fun _ => some geocodeOk
    urlToBase64 := fun _ => some "data:image/jpeg;base64,IMG" }

/-- An environment in which geocoding is denied. -/
def mapsEnvDenied : MapsEnv :=
  { mapsApiKey := some "maps-key"
    geocode := fun _ => some geocodeDenied
    urlToBase64 := fun _ => none }

/-- A minimal analysis payload. -/
def sampleAnalysis : SecurityAnalysis :=
  { overview := "Overview.", placements := [], cameraSummary := [] }

/-- The generic failure thrown by `getSecurityAnalysis`. -/
def analysisFailure : GeminiError :=
  .generic "Failed to perform security analysis. The AI model may be unable to process the request."

/-- An INPUT-state session with an address typed in. -/
def appStateReady : AppState :=
  { initialAppState with location := "221B Baker Street" }

/-- A session whose image fetch is in flight. -/
def appStateFetching : AppState :=
  { appStateReady with step := .FETCHING_IMAGE }

/-- A session whose analysis is in flight (the image already arrived). -/
def appStateAnalyzing : AppState :=
  { appStateReady with step := .ANALYZING, aerialImage := some "data:image/jpeg;base64,OLD" }

/-- A session in the ERROR state. -/
def appStateError : AppState :=
  { appStateReady with step := .ERROR, error := "boom" }

/-- A completed session. -/
def appStateComplete : AppState :=
  { appStateReady with
    step := .COMPLETE
    aerialImage := some "data:image/jpeg;base64,OLD"
    securityAnalysis := some sampleAnalysis }

/-! ## Helper lemmas -/

/-- On a lowercase letter or a digit, the filename sanitisation step
and the subsequent lower-casing are both the identity. -/
theorem toLower_sanitizeFilenameChar_of_alnum (c : Char)
    (h : ('a' ≤ c ∧ c ≤ 'z') ∨ ('0' ≤ c ∧ c ≤ '9')) :
    Char.toLower (sanitizeFilenameChar c) = c := by
  have hbounds : (97 ≤ c.toNat ∧ c.toNat ≤ 122) ∨ (48 ≤ c.toNat ∧ c.toNat ≤ 57) := by
    rcases h with ⟨h1, h2⟩ | ⟨h1, h2⟩
    · exact Or.inl ⟨by simpa [Char.le_def, UInt32.le_def, BitVec.le_def] using h1,
        by simpa [Char.le_def, UInt32.le_def, BitVec.le_def] using h2⟩
    · exact Or.inr ⟨by simpa [Char.le_def, UInt32.le_def, BitVec.le_def] using h1,
        by simpa [Char.le_def, UInt32.le_def, BitVec.le_def] using h2⟩
  have hfix : sanitizeFilenameChar c = c := by
    unfold sanitizeFilenameChar
    rcases h with ⟨h1, h2⟩ | ⟨h1, h2⟩ <;> simp [h1, h2]
  rw [hfix]
  unfold Char.toLower
  rw [if_neg]
  omega

/-! ## C1 -/

/-- C1: every geocode response with status `REQUEST_DENIED` makes
`getAerialViewFromAddress` fail with the distinguished
`MapsRequestDeniedError` kind, and no static-imagery fetch is
performed afterwards. -/
theorem geocode_denied_yields_denied_error_without_imagery_fetch
    (env : MapsEnv) (address : String) (zoom : Int)
    (k : String) (g : GeocodeResponse)
    (hk : env.mapsApiKey = some k) (hg : env.geocode address = some g)
    (hs : g.status = "REQUEST_DENIED") :
    isMapsRequestDenied (getAerialViewFromAddress env address zoom).1 = true ∧
    (getAerialViewFromAddress env address zoom).2 = 0 := by
  unfold getAerialViewFromAddress
  rw [hk, hg]
  simp only [hs]
  cases g.error_message <;> simp [isMapsRequestDenied]

/-- C1 witness: the theorem applied to a concrete denied environment. -/
theorem geocode_denied_yields_denied_error_without_imagery_fetch_witness :
    isMapsRequestDenied (getAerialViewFromAddress mapsEnvDenied "221B Baker Street" 19).1 = true ∧
    (getAerialViewFromAddress mapsEnvDenied "221B Baker Street" 19).2 = 0 :=
  geocode_denied_yields_denied_error_without_imagery_fetch
    mapsEnvDenied "221B Baker Street" 19 "maps-key" geocodeDenied rfl rfl rfl

/-! ## C2 -/

/-- C2: for a non-empty trimmed address, a submit while `isLoading` is
true is a no-op: no state snapshot is produced (the final state is the
pre-state) and the Imagery Client is not invoked. -/
theorem submit_while_loading_is_noop
    (maps : MapsEnv) (ar : Except GeminiError SecurityAnalysis)
    (origin : String) (s : AppState)
    (hne : jsTrim s.location ≠ "") (hl : isLoading s = true) :
    handleSubmit maps ar origin s = ([], 0) ∧
    submitFinal maps ar origin s = s := by
  have hcond : (jsTrim s.location == "" || isLoading s) = true := by
    rw [hl, Bool.or_true]
  refine ⟨?_, ?_⟩ <;> simp [handleSubmit, submitFinal, hcond]

/-- C2 witness: submitting while the image fetch is in flight. -/
theorem submit_while_loading_is_noop_witness :
    handleSubmit mapsEnvOk (.ok sampleAnalysis) "https://app.example" appStateFetching = ([], 0) ∧
    submitFinal mapsEnvOk (.ok sampleAnalysis) "https://app.example" appStateFetching = appStateFetching :=
  submit_while_loading_is_noop mapsEnvOk (.ok sampleAnalysis) "https://app.example"
    appStateFetching (by decide) rfl

/-! ## C3 -/

/-- C3 counterexample: invoking `handleZoomChange` while the workflow
is in `ANALYZING` (not `COMPLETE`) is not a no-op — it invokes the
Imagery Client and changes the session state. -/
theorem zoom_change_during_analyzing_invokes_imagery :
    appStateAnalyzing.step ≠ AnalysisStep.COMPLETE ∧
    (handleZoomChange mapsEnvOk appStateAnalyzing 18).2 ≠ 0 ∧
    zoomFinal mapsEnvOk appStateAnalyzing 18 ≠ appStateAnalyzing := by
  decide

/-- C3 amended: `handleZoomChange` is a no-op (no state snapshot, no
Imagery Client call) when the separate image-loading flag is set, the
location is empty, or the new zoom is outside [17, 21]; it does not
inspect the workflow state, and in every case it leaves the
`WorkflowState` unchanged. -/
theorem zoom_change_guard_noop_and_preserves_step
    (maps : MapsEnv) (s : AppState) (newZoom : Int) :
    ((s.isImageLoading = true ∨ s.location = "" ∨ newZoom < MIN_ZOOM ∨ newZoom > MAX_ZOOM) →
       handleZoomChange maps s newZoom = ([], 0)) ∧
    (∀ t ∈ (handleZoomChange maps s newZoom).1, t.step = s.step) ∧
    (zoomFinal maps s newZoom).step = s.step := by
  refine ⟨?_, ?_⟩
  · intro hcase
    have hcond : (s.isImageLoading || s.location == "" ||
        decide (newZoom < MIN_ZOOM) || decide (newZoom > MAX_ZOOM)) = true := by
      rcases hcase with h | h | h | h <;> simp [h]
    unfold handleZoomChange
    simp [hcond]
  · unfold zoomFinal handleZoomChange
    split
    · exact ⟨by simp, rfl⟩
    · split <;> exact ⟨by simp, rfl⟩

/-- C3 witness: a zoom request beyond the maximum is rejected, and the
workflow state is untouched. -/
theorem zoom_change_guard_noop_and_preserves_step_witness :
    handleZoomChange mapsEnvOk appStateComplete 22 = ([], 0) ∧
    (zoomFinal mapsEnvOk appStateComplete 22).step = appStateComplete.step :=
  ⟨(zoom_change_guard_noop_and_preserves_step mapsEnvOk appStateComplete 22).1
      (Or.inr (Or.inr (Or.inr (by decide)))),
    (zoom_change_guard_noop_and_preserves_step mapsEnvOk appStateComplete 22).2.2⟩

/-! ## C4 -/

/-- C4: the zoom level starts at the default 19, reset restores it to
19, every state snapshot produced by a submit carries 19, an
out-of-range zoom request is rejected as a no-op, and both the submit
flow and the zoom flow keep the zoom level within [17, 21]. -/
theorem zoom_level_always_within_bounds
    (maps : MapsEnv) (ar : Except GeminiError SecurityAnalysis)
    (origin : String) (s : AppState) (newZoom : Int)
    (hs : MIN_ZOOM ≤ s.zoomLevel ∧ s.zoomLevel ≤ MAX_ZOOM) :
    initialAppState.zoomLevel = INITIAL_ZOOM ∧
    (handleReset s).zoomLevel = INITIAL_ZOOM ∧
    (∀ t ∈ (handleSubmit maps ar origin s).1, t.zoomLevel = INITIAL_ZOOM) ∧
    ((newZoom < MIN_ZOOM ∨ newZoom > MAX_ZOOM) → handleZoomChange maps s newZoom = ([], 0)) ∧
    (MIN_ZOOM ≤ (submitFinal maps ar origin s).zoomLevel ∧
      (submitFinal maps ar origin s).zoomLevel ≤ MAX_ZOOM) ∧
    (MIN_ZOOM ≤ (zoomFinal maps s newZoom).zoomLevel ∧
      (zoomFinal maps s newZoom).zoomLevel ≤ MAX_ZOOM) := by
  refine ⟨rfl, rfl, ?_, ?_, ?_, ?_⟩
  · unfold handleSubmit
    split
    · simp
    · split
      · simp [INITIAL_ZOOM]
      · split <;> simp [INITIAL_ZOOM]
  · intro hcase
    have hcond : (s.isImageLoading || s.location == "" ||
        decide (newZoom < MIN_ZOOM) || decide (newZoom > MAX_ZOOM)) = true := by
      rcases hcase with h | h <;> simp [h]
    unfold handleZoomChange
    simp [hcond]
  · unfold submitFinal handleSubmit
    split
    · simpa using hs
    · split
      · simp [INITIAL_ZOOM, MIN_ZOOM, MAX_ZOOM]
      · split <;> simp [INITIAL_ZOOM, MIN_ZOOM, MAX_ZOOM]
  · unfold zoomFinal handleZoomChange
    split
    · simpa using hs
    · rename_i hguard
      simp only [Bool.not_eq_true, Bool.or_eq_false_iff, decide_eq_false_iff_not,
        not_lt] at hguard
      split
      · simpa using ⟨hguard.1.2, hguard.2⟩
      · simpa using hs

/-- C4 witness: from a completed session, reset restores zoom 19 and a
request for zoom 22 is rejected. -/
theorem zoom_level_always_within_bounds_witness :
    (MIN_ZOOM ≤ appStateComplete.zoomLevel ∧ appStateComplete.zoomLevel ≤ MAX_ZOOM) ∧
    (handleReset appStateComplete).zoomLevel = INITIAL_ZOOM ∧
    handleZoomChange mapsEnvOk appStateComplete 22 = ([], 0) :=
  ⟨by decide,
    (zoom_level_always_within_bounds mapsEnvOk (.ok sampleAnalysis) "https://app.example"
      appStateComplete 22 (by decide)).2.1,
    (zoom_level_always_within_bounds mapsEnvOk (.ok sampleAnalysis) "https://app.example"
      appStateComplete 22 (by decide)).2.2.2.1 (Or.inr (by decide))⟩

/-! ## C5 -/

/-- C5 counterexample: from the ERROR state, the `Try Again` action
(`handleReset`) does not preserve the entered address — it clears it. -/
theorem try_again_clears_address :
    appStateError.step = AnalysisStep.ERROR ∧
    (handleReset appStateError).location ≠ appStateError.location := by
  decide

/-- C5 amended: from the ERROR state, `Try Again` returns the workflow
to `INPUT` but clears the address, together with the image, the
analysis and the error message. -/
theorem try_again_returns_to_input_clearing_session
    (s : AppState) (h : s.step = AnalysisStep.ERROR) :
    (handleReset s).step = AnalysisStep.INPUT ∧
    (handleReset s).location = "" ∧
    (handleReset s).error = "" ∧
    (handleReset s).aerialImage = none ∧
    (handleReset s).securityAnalysis = none :=
  ⟨rfl, rfl, rfl, rfl, rfl⟩

/-- C5 witness: the amended theorem at a concrete ERROR state. -/
theorem try_again_returns_to_input_clearing_session_witness :
    (handleReset appStateError).step = AnalysisStep.INPUT ∧
    (handleReset appStateError).location = "" ∧
    (handleReset appStateError).error = "" ∧
    (handleReset appStateError).aerialImage = none ∧
    (handleReset appStateError).securityAnalysis = none :=
  try_again_returns_to_input_clearing_session appStateError rfl

/-! ## C6 -/

/-- C6: resetting from the COMPLETE state clears the address, the
image payload, the analysis and the error message, and returns the
workflow to `INPUT`. -/
theorem reset_from_complete_clears_session
    (s : AppState) (h : s.step = AnalysisStep.COMPLETE) :
    (handleReset s).location = "" ∧
    (handleReset s).aerialImage = none ∧
    (handleReset s).securityAnalysis = none ∧
    (handleReset s).error = "" ∧
    (handleReset s).step = AnalysisStep.INPUT :=
  ⟨rfl, rfl, rfl, rfl, rfl⟩

/-- C6 witness: the theorem at a concrete completed session. -/
theorem reset_from_complete_clears_session_witness :
    (handleReset appStateComplete).location = "" ∧
    (handleReset appStateComplete).aerialImage = none ∧
    (handleReset appStateComplete).securityAnalysis = none ∧
    (handleReset appStateComplete).error = "" ∧
    (handleReset appStateComplete).step = AnalysisStep.INPUT :=
  reset_from_complete_clears_session appStateComplete rfl

/-! ## C7 -/

/-- C7: along a submit, any snapshot still in `FETCHING_IMAGE` has
neither an image nor an analysis, an analysis is stored only in the
`COMPLETE` snapshot, an image-fetch failure ends in `ERROR` with both
payloads absent, and an analysis failure ends in `ERROR` with the
already-fetched image untouched and the analysis absent. -/
theorem payloads_null_until_success_and_analysis_failure_keeps_image
    (maps : MapsEnv) (ar : Except GeminiError SecurityAnalysis)
    (origin : String) (s : AppState)
    (hne : jsTrim s.location ≠ "") (hnl : isLoading s = false) :
    (∀ t ∈ (handleSubmit maps ar origin s).1,
        t.step = AnalysisStep.FETCHING_IMAGE →
          t.aerialImage = none ∧ t.securityAnalysis = none) ∧
    (∀ t ∈ (handleSubmit maps ar origin s).1,
        t.securityAnalysis = none ∨ t.step = AnalysisStep.COMPLETE) ∧
    (∀ e, (getAerialViewFromAddress maps s.location INITIAL_ZOOM).1 = .error e →
        (submitFinal maps ar origin s).step = AnalysisStep.ERROR ∧
        (submitFinal maps ar origin s).aerialImage = none ∧
        (submitFinal maps ar origin s).securityAnalysis = none) ∧
    (∀ u e, (getAerialViewFromAddress maps s.location INITIAL_ZOOM).1 = .ok u →
        ar = .error e →
        (submitFinal maps ar origin s).step = AnalysisStep.ERROR ∧
        (submitFinal maps ar origin s).aerialImage = some u ∧
        (submitFinal maps ar origin s).securityAnalysis = none) := by
  have hcond : (jsTrim s.location == "" || isLoading s) = false := by
    simp [hnl, hne]
  refine ⟨?_, ?_, ?_, ?_⟩
  · unfold handleSubmit
    rw [hcond]
    simp only [Bool.false_eq_true, if_false]
    split
    · simp
    · split <;> simp
  · unfold handleSubmit
    rw [hcond]
    simp only [Bool.false_eq_true, if_false]
    split
    · simp
    · split <;> simp
  · intro e he
    unfold submitFinal handleSubmit
    rw [hcond, he]
    simp
  · intro u e hu he
    unfold submitFinal handleSubmit
    rw [hcond, hu, he]
    simp

/-- C7 witness: a concrete successful image fetch followed by a failed
analysis ends in ERROR with the fetched image kept and no analysis. -/
theorem payloads_null_until_success_and_analysis_failure_keeps_image_witness :
    (submitFinal mapsEnvOk (.error analysisFailure) "https://app.example" appStateReady).step
        = AnalysisStep.ERROR ∧
    (submitFinal mapsEnvOk (.error analysisFailure) "https://app.example" appStateReady).aerialImage
        = some "data:image/jpeg;base64,IMG" ∧
    (submitFinal mapsEnvOk (.error analysisFailure) "https://app.example" appStateReady).securityAnalysis
        = none :=
  (payloads_null_until_success_and_analysis_failure_keeps_image mapsEnvOk
      (.error analysisFailure) "https://app.example" appStateReady (by decide) rfl).2.2.2
    "data:image/jpeg;base64,IMG" analysisFailure rfl rfl

/-! ## C8 -/

/-- C8 counterexample: at placement index 6 the exported PDF swatch
color and the on-screen marker color differ — the two `MARKER_COLORS`
palettes have different lengths (6 versus 23). -/
theorem pdf_swatch_differs_from_view_marker_at_index_six :
    pdfSwatchColor 6 = "#34d399" ∧
    viewMarkerColor 6 = "#2dd4bf" ∧
    pdfSwatchColor 6 ≠ viewMarkerColor 6 := by
  decide

/-- C8 amended: the PDF palette is exactly the 6-entry prefix of the
23-entry on-screen palette, both colors are computed as
`palette[index % palette.length]` over their own palettes, and the two
agree for placement indices 0 through 5. -/
theorem marker_palettes_agree_on_first_six (i : Nat) (h : i < 6) :
    MARKER_COLORS_pdf = MARKER_COLORS_view.take 6 ∧
    pdfSwatchColor i = viewMarkerColor i := by
  refine ⟨by decide, ?_⟩
  revert i
  decide

/-- C8 witness: the amended theorem at index 3. -/
theorem marker_palettes_agree_on_first_six_witness :
    MARKER_COLORS_pdf = MARKER_COLORS_view.take 6 ∧
    pdfSwatchColor 3 = viewMarkerColor 3 :=
  marker_palettes_agree_on_first_six 3 (by decide)

/-! ## C9 -/

/-- C9 counterexample: an address consisting only of alphanumeric
characters does not appear unchanged in the filename — the sanitised
name is also lower-cased. -/
theorem report_filename_lowercases_uppercase_address :
    reportFilename "ABC" = "security_report_abc.pdf" ∧
    reportFilename "ABC" ≠ "security_report_" ++ "ABC" ++ ".pdf" := by
  decide

/-- C9 amended: the filename replaces exactly the non-alphanumeric
characters of the address with underscores and lower-cases the result
inside the fixed prefix/suffix; hence an address of lowercase
alphanumeric characters appears unchanged. -/
theorem report_filename_identity_on_lowercase_alphanumeric
    (address : String)
    (h : ∀ c ∈ address.data, ('a' ≤ c ∧ c ≤ 'z') ∨ ('0' ≤ c ∧ c ≤ '9')) :
    reportFilename address = "security_report_" ++ address ++ ".pdf" := by
  have hsafe : safeFilename address = address := by
    unfold safeFilename
    rw [List.map_map]
    rw [show address.data.map (Char.toLower ∘ sanitizeFilenameChar) = address.data.map id from
      List.map_congr_left (fun c hc => toLower_sanitizeFilenameChar_of_alnum c (h c hc))]
    rw [List.map_id]
  unfold reportFilename
  rw [hsafe]

/-- C9 witness: the amended theorem at a lowercase alphanumeric
address. -/
theorem report_filename_identity_on_lowercase_alphanumeric_witness :
    reportFilename "221bbakerstreet" = "security_report_" ++ "221bbakerstreet" ++ ".pdf" :=
  report_filename_identity_on_lowercase_alphanumeric "221bbakerstreet" (by decide)

/-! ## C10 -/

/-- C10 counterexample: for a payload with two commas the inline data
is the segment between the first and the second comma, not the
substring after the first comma. -/
theorem inline_data_is_second_segment_not_suffix_after_first_comma :
    (imagePart "a,b,c").data = some "b" ∧
    specAfterFirstComma "a,b,c" = some "b,c" ∧
    (imagePart "a,b,c").data ≠ specAfterFirstComma "a,b,c" := by
  decide

/-- C10 amended: the inline image data is the second comma-separated
segment of the payload — for a payload of the shape `a ++ "," ++ b`
with comma-free `a` and `b` it is exactly `b` — and for a payload with
no comma the prefix-stripping step still succeeds with the data field
simply absent. -/
theorem inline_data_segment_behavior
    (a b s : String) (ha : ',' ∉ a.data) (hb : ',' ∉ b.data)
    (hs : ',' ∉ s.data) :
    (imagePart s).data = none ∧
    (imagePart (a ++ "," ++ b)).data = some b := by
  constructor
  · unfold imagePart base64Data
    simp only [List.splitOn]
    rw [List.splitOnP_eq_single (fun x => x == ',') s.data
      (fun x hx h' => hs (beq_iff_eq.mp h' ▸ hx))]
    rfl
  · unfold imagePart base64Data
    have hdata : (a ++ "," ++ b).data = a.data ++ ',' :: b.data := by
      simp [String.data_append]
    rw [hdata]
    simp only [List.splitOn]
    rw [List.splitOnP_first (fun x => x == ',') a.data
      (fun x hx h' => ha (beq_iff_eq.mp h' ▸ hx)) ',' (by simp) b.data]
    rw [List.splitOnP_eq_single (fun x => x == ',') b.data
      (fun x hx h' => hb (beq_iff_eq.mp h' ▸ hx))]
    rfl

/-- C10 witness: the amended theorem at a concrete data URL and a
comma-free payload. -/
theorem inline_data_segment_behavior_witness :
    (imagePart "nocomma").data = none ∧
    (imagePart ("data:image/jpeg;base64" ++ "," ++ "ABC123")).data = some "ABC123" :=
  inline_data_segment_behavior "data:image/jpeg;base64" "ABC123" "nocomma"
    (by decide) (by decide) (by decide)

end Surveyor
